import Mathlib

/-!
# sqlite3-preload: a shallow embedding of `sqlite3-preload.c`

The C file interposes on `sqlite3_open`, `sqlite3_open16` and `sqlite3_open_v2`.
Each hook reads the script named by `SQLITE3_INIT_SQL` (`read_file`), calls the real
open through a function pointer bound by `load_syms`, and runs the script on the new
connection.

Everything outside the C file (libc, the dynamic loader, the real SQLite library) is an
oracle: a function of the history of calls made so far.  Every call the C code makes is
appended to a chronological trace of `Event`s, so that "which calls were made, in which
order, with which arguments" is an ordinary statement about a list.

Modelling choices:
* `size_t` values are naturals reduced modulo `SIZE_MOD` after every addition;
* the block `buf` points to is the list of its cells, so its length is the true capacity,
  and a store outside it is a separate outcome (`Iter.fault`, `none`);
* a stream is the finite list of the outcomes of its `fread` calls, which makes the read
  loop structurally recursive: it always terminates;
* `abort()` is the outcome `none` of `get_sym` and `load_syms`;
* text written to `stderr` is recorded as an event, without its formatting.
-/

namespace Sqlite3Preload

/-- A C pointer value; `0` is the null pointer. -/
abbrev Ptr := Nat

/-- A C `char` cell. -/
abbrev Byte := UInt8

/-- The constant of `#define SQLITE_CANTOPEN 14`. -/
def SQLITE_CANTOPEN : Int := 14

/-- Arithmetic on `size_t` wraps modulo this value (LP64: 64-bit `size_t`). -/
def SIZE_MOD : Nat := 2 ^ 64

/-- The value of `sizeof(rdbuf)`, the third argument of every `fread` call. -/
def RDBUF_SIZE : Nat := 1024

/-- What one call `fread(rdbuf, 1, sizeof(rdbuf), file)` does: the bytes it hands over
(`fread` itself never stores more than `sizeof(rdbuf)` of them) and the values of
`feof(file)` and `ferror(file)` after the call. -/
structure Fread where
  data : List Byte
  eof : Bool
  err : Bool
  deriving DecidableEq

/-- An open `FILE *`: the outcomes of the successive `fread` calls made on it.  Once the
list is used up the stream is at end-of-file: a further `fread` stores nothing and
raises the end-of-file indicator. -/
abbrev FILE := List Fread

/-- The outcome of `fread` on a stream with nothing left. -/
def at_eof : Fread := ⟨[], true, false⟩

/-- Calls made by the C code, in the order they are made. -/
inductive Event where
  | fopen (path : String) (ok : Bool)
  | malloc (size : Nat) (ret : Ptr)
  | fread (sz_read : Nat) (ferror : Bool)
  | realloc (old : Ptr) (size : Nat) (ret : Ptr)
  | show_err (filename : String) (op : String)
  | free (p : Ptr)
  | fclose
  | orig_sqlite3_open (filename : Ptr) (ppDb : Ptr)
  | orig_sqlite3_open16 (filename : Ptr) (ppDb : Ptr)
  | orig_sqlite3_open_v2 (filename : Ptr) (ppDb : Ptr) (flags : Int) (zVfs : Ptr)
  | orig_sqlite3_exec (pDb : Ptr) (sql : Ptr) (text : List Byte) (callback : Ptr) (user : Ptr)
  | fprintf_stderr (err : Ptr)
  | orig_sqlite3_free (data : Ptr)
  | orig_sqlite3_close (pDb : Ptr)
  deriving DecidableEq

/-- The world around the hooks.  Each oracle sees the trace of calls made before it.

* `getenv`: the process environment.
* `fopen`: `none` when `fopen` returns `NULL`.
* `malloc`, `realloc`: the returned pointer, `0` on failure.
* `fresh`: the indeterminate content of a newly allocated cell.
* `indeterminate`: the value of a pointer local that was never assigned.
* `orig_sqlite3_open*`: given the arguments and the value of `*ppDb` before the call,
  the return code and the value of `*ppDb` after the call.
* `orig_sqlite3_exec`: the return code and the value of `err` after the call.

The return values of `orig_sqlite3_free` and `orig_sqlite3_close` are not used by the
C code.  The delegates reach `*ppDb` only through a `ppDb` argument. -/
structure Env where
  getenv : String → Option String
  fopen : List Event → String → Option FILE
  malloc : List Event → Nat → Ptr
  realloc : List Event → Ptr → Nat → Ptr
  fresh : Nat → Byte
  indeterminate : Ptr
  orig_sqlite3_open : List Event → Ptr → Ptr → Ptr → Int × Ptr
  orig_sqlite3_open16 : List Event → Ptr → Ptr → Ptr → Int × Ptr
  orig_sqlite3_open_v2 : List Event → Ptr → Ptr → Ptr → Int → Ptr → Int × Ptr
  orig_sqlite3_exec : List Event → Ptr → Ptr → List Byte → Ptr → Ptr → Int × Ptr

/-! ## `read_file` -/

/-- The cells of a block of `n` bytes just obtained from `malloc`. -/
def malloc_cells (env : Env) (n : Nat) : List Byte :=
  (List.range n).map env.fresh

/-- The cells of a block after a successful `realloc` to `n` bytes: the old content up
to the smaller of the two sizes, then indeterminate cells. -/
def realloc_cells (env : Env) (cells : List Byte) (n : Nat) : List Byte :=
  (cells ++ (List.range (n - cells.length)).map env.fresh).take n

/-- The locals of `read_file` that live across loop iterations, the content of the
block `buf` points to, and the trace. -/
structure Vars where
  buf : Ptr
  cells : List Byte
  sz_buf : Nat
  sz_buf_total : Nat
  trace : List Event
  deriving DecidableEq

/-- How one pass through the loop body ends. -/
inductive Iter where
  /-- The body ran to its end; control is back at the loop test. -/
  | next (v : Vars)
  /-- The pass ended in `ret = -1; goto out;` -/
  | out (v : Vars)
  /-- A store outside the allocated block (undefined behaviour). -/
  | fault
  deriving DecidableEq

/-- The statements `memcpy(buf + sz_buf, rdbuf, sz_read); sz_buf += sz_read;` with the
bounds of the destination block checked. -/
def copy_chunk (v : Vars) (chunk : List Byte) (tr : List Event) : Iter :=
  if v.sz_buf + chunk.length ≤ v.cells.length then
    Iter.next
      { v with
        cells := v.cells.take v.sz_buf ++ chunk ++ v.cells.drop (v.sz_buf + chunk.length)
        sz_buf := (v.sz_buf + chunk.length) % SIZE_MOD
        trace := tr }
  else Iter.fault

/-- The body of `while (!feof(file))` for one `fread` outcome `r` (lines 99-123). -/
def loop_body (env : Env) (filename : String) (v : Vars) (r : Fread) : Iter :=
  let chunk := r.data.take RDBUF_SIZE
  let sz_read := chunk.length
  let tr := v.trace ++ [Event.fread sz_read r.err]
  if r.err then
    Iter.out { v with trace := tr ++ [Event.show_err filename "cannot fread()"] }
  else
    let sz_need := (v.sz_buf + sz_read + 1) % SIZE_MOD
    if sz_need > v.sz_buf_total then
      let sz_need := (sz_need + 4096) % SIZE_MOD
      let nbuf := env.realloc tr v.buf sz_need
      let tr := tr ++ [Event.realloc v.buf sz_need nbuf]
      if nbuf = 0 then
        Iter.out { v with trace := tr ++ [Event.show_err filename "cannot realloc()"] }
      else
        copy_chunk
          { v with buf := nbuf, cells := realloc_cells env v.cells sz_need,
                   sz_buf_total := sz_need }
          chunk tr
    else
      copy_chunk v chunk tr

/-- The loop `while (!feof(file)) { ... }` (lines 98-124), entered with the end-of-file
indicator clear.  `Iter.next v` here means the loop was left through its test. -/
def read_loop (env : Env) (filename : String) : FILE → Vars → Iter
  | [], v => loop_body env filename v at_eof
  | r :: rest, v =>
    match loop_body env filename v r with
    | Iter.next v1 => if r.eof then Iter.next v1 else read_loop env filename rest v1
    | Iter.out v1 => Iter.out v1
    | Iter.fault => Iter.fault

/-- What `read_file` leaves behind: its return value, the value stored in `*obuf`
(`none` when `*obuf` was not written; a stored pointer comes with the cells of its
block) and the trace. -/
structure ReadFile where
  ret : Int
  obuf : Option (Ptr × List Byte)
  trace : List Event
  deriving DecidableEq

/-- The locals at the first loop test: `sz_buf = 0; sz_buf_total = 1024;
buf = malloc(1024);` -/
def initial_vars (env : Env) (t : List Event) (filename : String) : Vars :=
  let t1 := t ++ [Event.fopen filename true]
  let buf := env.malloc t1 1024
  ⟨buf, malloc_cells env 1024, 0, 1024, t1 ++ [Event.malloc 1024 buf]⟩

/-- The function `static int read_file(char **obuf)` run after the calls in `t`; `none` is
undefined behaviour (a store outside the buffer). -/
def read_file (env : Env) (t : List Event) : Option ReadFile :=
  match env.getenv "SQLITE3_INIT_SQL" with
  | none => some ⟨0, some (0, []), t⟩
  | some filename =>
    match env.fopen t filename with
    | none =>
      some ⟨-1, none,
        t ++ [Event.fopen filename false, Event.show_err filename "cannot fopen()"]⟩
    | some file =>
      let v0 := initial_vars env t filename
      if v0.buf = 0 then
        some ⟨-1, none,
          v0.trace ++ [Event.show_err filename "cannot malloc()", Event.free 0, Event.fclose]⟩
      else
        match read_loop env filename file v0 with
        | Iter.fault => none
        | Iter.out v => some ⟨-1, none, v.trace ++ [Event.free v.buf, Event.fclose]⟩
        | Iter.next v =>
          if v.sz_buf < v.cells.length then
            some ⟨0, some (v.buf, v.cells.set v.sz_buf 0),
              v.trace ++ [Event.free 0, Event.fclose]⟩
          else none

/-! ## The hooks -/

/-- What a hook leaves behind: its return value, the value of `*ppDb` and the trace. -/
structure HookResult where
  ret : Int
  db : Ptr
  trace : List Event
  deriving DecidableEq

/-- The hook `int sqlite3_open(const char *filename, sqlite3 **ppDb)` (lines 207-241),
run after the calls in `t` with `*ppDb = db0`. -/
def sqlite3_open (env : Env) (t : List Event) (filename ppDb db0 : Ptr) :
    Option HookResult :=
  match read_file env t with
  | none => none
  | some rf =>
    if rf.ret = -1 then some ⟨SQLITE_CANTOPEN, db0, rf.trace⟩
    else
      let cmdbuf := rf.obuf.getD (env.indeterminate, [])
      let r := env.orig_sqlite3_open rf.trace filename ppDb db0
      let tr := rf.trace ++ [Event.orig_sqlite3_open filename ppDb]
      if r.1 ≠ 0 then some ⟨r.1, r.2, tr ++ [Event.free cmdbuf.1]⟩
      else if cmdbuf.1 ≠ 0 then
        let x := env.orig_sqlite3_exec tr r.2 cmdbuf.1 cmdbuf.2 0 0
        let tr := tr ++ [Event.orig_sqlite3_exec r.2 cmdbuf.1 cmdbuf.2 0 0]
        if x.1 ≠ 0 then
          some ⟨SQLITE_CANTOPEN, r.2,
            tr ++ [Event.fprintf_stderr x.2, Event.orig_sqlite3_free x.2,
                   Event.orig_sqlite3_close r.2]⟩
        else some ⟨x.1, r.2, tr⟩
      else some ⟨r.1, r.2, tr⟩

/-- The hook `int sqlite3_open16(const void *filename, sqlite3 **ppDb)` (lines 245-278). -/
def sqlite3_open16 (env : Env) (t : List Event) (filename ppDb db0 : Ptr) :
    Option HookResult :=
  match read_file env t with
  | none => none
  | some rf =>
    if rf.ret = -1 then some ⟨SQLITE_CANTOPEN, db0, rf.trace⟩
    else
      let cmdbuf := rf.obuf.getD (env.indeterminate, [])
      let r := env.orig_sqlite3_open16 rf.trace filename ppDb db0
      let tr := rf.trace ++ [Event.orig_sqlite3_open16 filename ppDb]
      if r.1 ≠ 0 then some ⟨r.1, r.2, tr ++ [Event.free cmdbuf.1]⟩
      else if cmdbuf.1 ≠ 0 then
        let x := env.orig_sqlite3_exec tr r.2 cmdbuf.1 cmdbuf.2 0 0
        let tr := tr ++ [Event.orig_sqlite3_exec r.2 cmdbuf.1 cmdbuf.2 0 0]
        if x.1 ≠ 0 then
          some ⟨SQLITE_CANTOPEN, r.2,
            tr ++ [Event.fprintf_stderr x.2, Event.orig_sqlite3_free x.2,
                   Event.orig_sqlite3_close r.2]⟩
        else some ⟨x.1, r.2, tr⟩
      else some ⟨r.1, r.2, tr⟩

/-- The hook `int sqlite3_open_v2(const char *filename, sqlite3 **ppDb, int flags,
const char *zVfs)` (lines 282-317). -/
def sqlite3_open_v2 (env : Env) (t : List Event) (filename ppDb db0 : Ptr) (flags : Int)
    (zVfs : Ptr) : Option HookResult :=
  match read_file env t with
  | none => none
  | some rf =>
    if rf.ret = -1 then some ⟨SQLITE_CANTOPEN, db0, rf.trace⟩
    else
      let cmdbuf := rf.obuf.getD (env.indeterminate, [])
      let r := env.orig_sqlite3_open_v2 rf.trace filename ppDb db0 flags zVfs
      let tr := rf.trace ++ [Event.orig_sqlite3_open_v2 filename ppDb flags zVfs]
      if r.1 ≠ 0 then some ⟨r.1, r.2, tr ++ [Event.free cmdbuf.1]⟩
      else if cmdbuf.1 ≠ 0 then
        let x := env.orig_sqlite3_exec tr r.2 cmdbuf.1 cmdbuf.2 0 0
        let tr := tr ++ [Event.orig_sqlite3_exec r.2 cmdbuf.1 cmdbuf.2 0 0]
        if x.1 ≠ 0 then
          some ⟨SQLITE_CANTOPEN, r.2,
            tr ++ [Event.fprintf_stderr x.2, Event.orig_sqlite3_free x.2,
                   Event.orig_sqlite3_close r.2]⟩
        else some ⟨x.1, r.2, tr⟩
      else some ⟨r.1, r.2, tr⟩

/-! ## `load_syms` -/

/-- Calls made to the dynamic loader. -/
inductive DlEvent where
  | dlopen (library : String) (flags : Nat)
  | dlsym (lib : Ptr) (name : String)
  deriving DecidableEq

/-- The flag `RTLD_NOW` of `<dlfcn.h>` (glibc). -/
def RTLD_NOW : Nat := 2

/-- The flag `RTLD_GLOBAL` of `<dlfcn.h>` (glibc). -/
def RTLD_GLOBAL : Nat := 256

/-- The dynamic loader: for each call, the returned pointer and what the following
`dlerror()` returns (`none` for `NULL`). -/
structure Loader where
  dlopen : List DlEvent → String → Nat → Ptr × Option String
  dlsym : List DlEvent → Ptr → String → Ptr × Option String

/-- The file-scope variables of the C file and the loader calls made so far. -/
structure Syms where
  lib : Ptr
  orig_sqlite3_open : Ptr
  orig_sqlite3_open16 : Ptr
  orig_sqlite3_open_v2 : Ptr
  orig_sqlite3_close : Ptr
  orig_sqlite3_free : Ptr
  orig_sqlite3_exec : Ptr
  calls : List DlEvent
  deriving DecidableEq

/-- The state at program start: statics are zero-initialised, no call was made. -/
def Syms.start : Syms := ⟨0, 0, 0, 0, 0, 0, 0, []⟩

/-- The function `static void *get_sym(const char *name)`: the symbol and the extended
call list, or `none` when the function calls `abort()`. -/
def get_sym (ld : Loader) (lib : Ptr) (calls : List DlEvent) (name : String) :
    Option (Ptr × List DlEvent) :=
  let r := ld.dlsym calls lib name
  let sym := r.1
  let err := if r.2 = none ∧ sym = 0 then some "dlsym() returned NULL!" else r.2
  if err ≠ none then none
  else some (sym, calls ++ [DlEvent.dlsym lib name])

/-- The function `static void __attribute__((constructor)) load_syms(void)`, run on the
file-scope variables `s`; `none` when the process is aborted. -/
def load_syms (ld : Loader) (getenv : String → Option String) (s : Syms) : Option Syms :=
  if s.lib ≠ 0 then some s
  else
    let library := (getenv "SQLITE3_LIBRARY").getD "libsqlite3.so.0"
    let r := ld.dlopen s.calls library (RTLD_NOW ||| RTLD_GLOBAL)
    let lib := r.1
    let calls := s.calls ++ [DlEvent.dlopen library (RTLD_NOW ||| RTLD_GLOBAL)]
    let err := if r.2 = none ∧ lib = 0 then some "dlopen() returned NULL!" else r.2
    if err ≠ none then none
    else
      match get_sym ld lib calls "sqlite3_open" with
      | none => none
      | some (o, c1) =>
      match get_sym ld lib c1 "sqlite3_open16" with
      | none => none
      | some (o16, c2) =>
      match get_sym ld lib c2 "sqlite3_open_v2" with
      | none => none
      | some (ov2, c3) =>
      match get_sym ld lib c3 "sqlite3_exec" with
      | none => none
      | some (ex, c4) =>
      match get_sym ld lib c4 "sqlite3_free" with
      | none => none
      | some (fr, c5) =>
      match get_sym ld lib c5 "sqlite3_close" with
      | none => none
      | some (cl, c6) => some ⟨lib, o, o16, ov2, cl, fr, ex, c6⟩

/-! ## Vocabulary of the statements -/

/-- The three hooks; `v2` carries the two extra arguments of `sqlite3_open_v2`. -/
inductive Hook where
  | plain
  | wide
  | v2 (flags : Int) (zVfs : Ptr)
  deriving DecidableEq

/-- The hook function itself. -/
def Hook.run (k : Hook) (env : Env) (t : List Event) (filename ppDb db0 : Ptr) :
    Option HookResult :=
  match k with
  | Hook.plain => sqlite3_open env t filename ppDb db0
  | Hook.wide => sqlite3_open16 env t filename ppDb db0
  | Hook.v2 flags zVfs => sqlite3_open_v2 env t filename ppDb db0 flags zVfs

/-- The real open behind a hook, called after the calls in `tr` with the arguments of
the hook: return code and the value it leaves in `*ppDb`. -/
def Hook.delegate (k : Hook) (env : Env) (tr : List Event) (filename ppDb db0 : Ptr) :
    Int × Ptr :=
  match k with
  | Hook.plain => env.orig_sqlite3_open tr filename ppDb db0
  | Hook.wide => env.orig_sqlite3_open16 tr filename ppDb db0
  | Hook.v2 flags zVfs => env.orig_sqlite3_open_v2 tr filename ppDb db0 flags zVfs

/-- The trace entry of a call of the real open behind a hook. -/
def Hook.call (k : Hook) (filename ppDb : Ptr) : Event :=
  match k with
  | Hook.plain => Event.orig_sqlite3_open filename ppDb
  | Hook.wide => Event.orig_sqlite3_open16 filename ppDb
  | Hook.v2 flags zVfs => Event.orig_sqlite3_open_v2 filename ppDb flags zVfs

/-- The unwrapped library: a caller that reaches the real open directly. -/
def Hook.unwrapped (k : Hook) (env : Env) (t : List Event) (filename ppDb db0 : Ptr) :
    Option HookResult :=
  some ⟨(k.delegate env t filename ppDb db0).1, (k.delegate env t filename ppDb db0).2,
    t ++ [k.call filename ppDb]⟩

/-- Calls through one of the six function pointers bound by `load_syms`. -/
def is_delegate : Event → Bool
  | Event.orig_sqlite3_open _ _ => true
  | Event.orig_sqlite3_open16 _ _ => true
  | Event.orig_sqlite3_open_v2 _ _ _ _ => true
  | Event.orig_sqlite3_exec _ _ _ _ _ => true
  | Event.orig_sqlite3_free _ => true
  | Event.orig_sqlite3_close _ => true
  | _ => false

/-- The calls into the real library, in order. -/
def delegate_calls (tr : List Event) : List Event := tr.filter is_delegate

/-- What a caller and the real library can see of a hook call: the return value, the
value of `*ppDb`, and the calls into the real library. -/
def observe (r : Option HookResult) : Option (Int × Ptr × List Event) :=
  r.map fun h => (h.ret, h.db, delegate_calls h.trace)

/-- A libc call of `read_file` that reported failure: `fopen` or an allocation returned
`NULL`, or `ferror` was set after an `fread`. -/
def failed_call : Event → Bool
  | Event.fopen _ ok => !ok
  | Event.malloc _ ret => decide (ret = 0)
  | Event.realloc _ _ ret => decide (ret = 0)
  | Event.fread _ e => e
  | _ => false

/-- The bytes a stream hands over until `feof` becomes true. -/
def delivered : FILE → List Byte
  | [] => []
  | r :: rest => r.data.take RDBUF_SIZE ++ (if r.eof then [] else delivered rest)

/-- The loop variables each time control is at the loop test of `read_file`, the last
entry being the state in which the loop is left through its test (no entry follows a
`goto out`). -/
def loop_heads (env : Env) (filename : String) : FILE → Vars → List Vars
  | [], v =>
    v :: (match loop_body env filename v at_eof with
          | Iter.next v1 => [v1]
          | _ => [])
  | r :: rest, v =>
    v :: (match loop_body env filename v r with
          | Iter.next v1 => if r.eof then [v1] else loop_heads env filename rest v1
          | _ => [])

/-- The invariant of the read loop: room for the terminator, and `sz_buf_total` is the
size of the block `buf` points to. -/
def Inv (v : Vars) : Prop :=
  v.sz_buf + 1 ≤ v.sz_buf_total ∧ v.sz_buf_total = v.cells.length

/-! ## Sample worlds -/

/-- A world with no `SQLITE3_INIT_SQL`, allocations that succeed and a real library whose
open and exec succeed; the open stores the handle `500`. -/
def env_base : Env where
  getenv := fun _ => none
  fopen := fun _ _ => none
  malloc := fun _ _ => 4096
  realloc := fun _ _ _ => 8192
  fresh := fun _ => 170
  indeterminate := 57005
  orig_sqlite3_open := fun _ _ _ _ => (0, 500)
  orig_sqlite3_open16 := fun _ _ _ _ => (0, 500)
  orig_sqlite3_open_v2 := fun _ _ _ _ _ _ => (0, 500)
  orig_sqlite3_exec := fun _ _ _ _ _ _ => (0, 0)

/-- The base world with `SQLITE3_INIT_SQL=init.sql` and `file` behind that path. -/
def env_script (file : FILE) : Env :=
  { env_base with
    getenv := fun name => if name = "SQLITE3_INIT_SQL" then some "init.sql" else none
    fopen := fun _ _ => some file }

/-- The script world with a real library that rejects the script: exec returns `1` and
stores the error text `700`. -/
def env_bad_sql (file : FILE) : Env :=
  { env_script file with orig_sqlite3_exec := fun _ _ _ _ _ _ => (1, 700) }

/-- The script world with a real library whose opens fail with code `7` and store a
null handle. -/
def env_no_db (file : FILE) : Env :=
  { env_script file with
    orig_sqlite3_open := fun _ _ _ _ => (7, 0)
    orig_sqlite3_open16 := fun _ _ _ _ => (7, 0)
    orig_sqlite3_open_v2 := fun _ _ _ _ _ _ => (7, 0) }

/-- The bytes of `SELECT 1;`. -/
def select_1 : List Byte := [83, 69, 76, 69, 67, 84, 32, 49, 59]

/-- A nine-byte script file, read in one `fread` that also reaches end-of-file. -/
def small_file : FILE := [⟨select_1, true, false⟩]

/-- One full `rdbuf` of `-` characters. -/
def full_chunk : Fread := ⟨List.replicate 1024 45, false, false⟩

/-- A 6144-byte script file read in six full chunks. -/
def big_file : FILE :=
  [full_chunk, full_chunk, full_chunk, full_chunk, full_chunk, full_chunk]

/-- A 1033-byte script file: one full chunk of `-`, then `SELECT 1;` and end-of-file. -/
def two_chunk_file : FILE := [full_chunk, ⟨select_1, true, false⟩]

/-- The content of `two_chunk_file`. -/
def two_chunk_content : List Byte := List.replicate 1024 45 ++ select_1

/-- A file whose second `fread` fails after a first full chunk. -/
def broken_file : FILE := [full_chunk, ⟨[], false, true⟩]

/-- The buffer `read_file` hands back for `small_file` in the sample worlds. -/
def small_cells : List Byte :=
  (select_1 ++ (malloc_cells env_base 1024).drop 9).set 9 0

/-- What `read_file` leaves behind for `small_file` in the sample worlds. -/
def small_loaded : ReadFile :=
  ⟨0, some (4096, small_cells),
    [Event.fopen "init.sql" true, Event.malloc 1024 4096, Event.fread 9 false,
     Event.free 0, Event.fclose]⟩

/-- What `read_file` leaves behind for `broken_file` in the sample worlds. -/
def broken_loaded : ReadFile :=
  ⟨-1, none,
    [Event.fopen "init.sql" true, Event.malloc 1024 4096, Event.fread 1024 false,
     Event.realloc 4096 5121 8192, Event.fread 0 true,
     Event.show_err "init.sql" "cannot fread()", Event.free 8192, Event.fclose]⟩

/-- A loader that opens every library at handle `1000` and resolves every name. -/
def sample_loader : Loader where
  dlopen := fun _ _ _ => (1000, none)
  dlsym := fun _ _ name => (2000 + name.length, none)

/-- The file-scope variables after `load_syms` ran against `sample_loader`. -/
def sample_syms : Syms :=
  ⟨1000, 2012, 2014, 2015, 2013, 2012, 2012,
    [DlEvent.dlopen "libsqlite3.so.0" 258,
     DlEvent.dlsym 1000 "sqlite3_open", DlEvent.dlsym 1000 "sqlite3_open16",
     DlEvent.dlsym 1000 "sqlite3_open_v2", DlEvent.dlsym 1000 "sqlite3_exec",
     DlEvent.dlsym 1000 "sqlite3_free", DlEvent.dlsym 1000 "sqlite3_close"]⟩

/-! ## Lemmas -/

theorem splice_length {α : Type} (X c : List α) (k : Nat) (h : k + c.length ≤ X.length) :
    (X.take k ++ c ++ X.drop (k + c.length)).length = X.length := by
  simp only [List.length_append, List.length_take, List.length_drop]
  omega

theorem splice_take {α : Type} (X c : List α) (k : Nat) (h : k ≤ X.length) :
    (X.take k ++ c ++ X.drop (k + c.length)).take (k + c.length) = X.take k ++ c := by
  have hl : (X.take k ++ c).length = k + c.length := by
    simp only [List.length_append, List.length_take]; omega
  rw [← hl, List.take_left]

theorem realloc_cells_length (env : Env) (cells : List Byte) (n : Nat) :
    (realloc_cells env cells n).length = n := by
  simp only [realloc_cells, List.length_take, List.length_append, List.length_map,
    List.length_range]
  omega

theorem realloc_cells_take (env : Env) (cells : List Byte) (n k : Nat)
    (hk : k ≤ cells.length) (hn : k ≤ n) :
    (realloc_cells env cells n).take k = cells.take k := by
  simp only [realloc_cells, List.take_take]
  rw [Nat.min_eq_left hn, List.take_append_of_le_length hk]

theorem malloc_cells_length (env : Env) (n : Nat) : (malloc_cells env n).length = n := by
  simp [malloc_cells]

theorem copy_chunk_eq (v : Vars) (c : List Byte) (tr : List Event)
    (hb : v.sz_buf + c.length ≤ v.cells.length) (hm : v.sz_buf + c.length < SIZE_MOD) :
    copy_chunk v c tr =
      Iter.next ⟨v.buf, v.cells.take v.sz_buf ++ c ++ v.cells.drop (v.sz_buf + c.length),
        v.sz_buf + c.length, v.sz_buf_total, tr⟩ := by
  unfold copy_chunk
  rw [if_pos hb, Nat.mod_eq_of_lt hm]

/-- What a completed pass through the loop body has done, when no size wraps. -/
theorem loop_body_next (env : Env) (fn : String) (v v1 : Vars) (r : Fread) (hinv : Inv v)
    (hsz : v.sz_buf + (r.data.take RDBUF_SIZE).length + 4097 < SIZE_MOD)
    (h : loop_body env fn v r = Iter.next v1) :
    r.err = false ∧ Inv v1 ∧ v1.sz_buf = v.sz_buf + (r.data.take RDBUF_SIZE).length ∧
      v1.cells.take v1.sz_buf = v.cells.take v.sz_buf ++ r.data.take RDBUF_SIZE ∧
      (v1.sz_buf_total = v.sz_buf_total ∨
        (v.sz_buf_total < v.sz_buf + (r.data.take RDBUF_SIZE).length + 1 ∧
         v1.sz_buf_total = v.sz_buf + (r.data.take RDBUF_SIZE).length + 4097)) ∧
      (v1.buf = v.buf ∨ v1.buf ≠ 0) := by
  obtain ⟨h1, h2⟩ := hinv
  have m1 : (v.sz_buf + (r.data.take RDBUF_SIZE).length + 1) % SIZE_MOD
      = v.sz_buf + (r.data.take RDBUF_SIZE).length + 1 := Nat.mod_eq_of_lt (by omega)
  have m2 : (v.sz_buf + (r.data.take RDBUF_SIZE).length + 1 + 4096) % SIZE_MOD
      = v.sz_buf + (r.data.take RDBUF_SIZE).length + 4097 := Nat.mod_eq_of_lt (by omega)
  unfold loop_body at h
  simp only [m1, m2] at h
  split_ifs at h with he hg hn
  · rw [copy_chunk_eq _ _ _ (by simp only [realloc_cells_length]; omega)
      (by simp only []; omega)] at h
    simp only [Iter.next.injEq] at h
    subst h
    refine ⟨by simpa using he, ⟨by simp only []; omega, ?_⟩, rfl, ?_, Or.inr ⟨by omega, rfl⟩,
      Or.inr hn⟩
    · simp only []
      rw [splice_length _ _ _ (by rw [realloc_cells_length]; omega), realloc_cells_length]
    · simp only []
      rw [splice_take _ _ _ (by rw [realloc_cells_length]; omega),
        realloc_cells_take _ _ _ _ (by omega) (by omega)]
  · rw [copy_chunk_eq _ _ _ (by omega) (by omega)] at h
    simp only [Iter.next.injEq] at h
    subst h
    refine ⟨by simpa using he, ⟨by simp only []; omega, ?_⟩, rfl, ?_, Or.inl rfl, Or.inl rfl⟩
    · simp only []
      rw [splice_length _ _ _ (by omega)]; exact h2
    · simp only []
      rw [splice_take _ _ _ (by omega)]

theorem loop_body_no_fault (env : Env) (fn : String) (v : Vars) (r : Fread) (hinv : Inv v)
    (hsz : v.sz_buf + (r.data.take RDBUF_SIZE).length + 4097 < SIZE_MOD) :
    loop_body env fn v r ≠ Iter.fault := by
  obtain ⟨h1, h2⟩ := hinv
  have m1 : (v.sz_buf + (r.data.take RDBUF_SIZE).length + 1) % SIZE_MOD
      = v.sz_buf + (r.data.take RDBUF_SIZE).length + 1 := Nat.mod_eq_of_lt (by omega)
  have m2 : (v.sz_buf + (r.data.take RDBUF_SIZE).length + 1 + 4096) % SIZE_MOD
      = v.sz_buf + (r.data.take RDBUF_SIZE).length + 4097 := Nat.mod_eq_of_lt (by omega)
  intro h
  unfold loop_body at h
  simp only [m1, m2] at h
  split_ifs at h with he hg hn
  · rw [copy_chunk_eq _ _ _ (by simp only [realloc_cells_length]; omega)
      (by simp only []; omega)] at h
    exact Iter.noConfusion h
  · rw [copy_chunk_eq _ _ _ (by omega) (by omega)] at h
    exact Iter.noConfusion h

theorem loop_body_progress (env : Env) (fn : String) (v : Vars) (r : Fread) (hinv : Inv v)
    (hsz : v.sz_buf + (r.data.take RDBUF_SIZE).length + 4097 < SIZE_MOD)
    (herr : r.err = false) (hre : ∀ h p n, env.realloc h p n ≠ 0) :
    ∃ v1, loop_body env fn v r = Iter.next v1 := by
  obtain ⟨h1, h2⟩ := hinv
  have m1 : (v.sz_buf + (r.data.take RDBUF_SIZE).length + 1) % SIZE_MOD
      = v.sz_buf + (r.data.take RDBUF_SIZE).length + 1 := Nat.mod_eq_of_lt (by omega)
  have m2 : (v.sz_buf + (r.data.take RDBUF_SIZE).length + 1 + 4096) % SIZE_MOD
      = v.sz_buf + (r.data.take RDBUF_SIZE).length + 4097 := Nat.mod_eq_of_lt (by omega)
  unfold loop_body
  simp only [m1, m2, herr, hre, Bool.false_eq_true, if_false]
  split_ifs with hg
  · rw [copy_chunk_eq _ _ _ (by simp only [realloc_cells_length]; omega)
      (by simp only []; omega)]
    exact ⟨_, rfl⟩
  · rw [copy_chunk_eq _ _ _ (by omega) (by omega)]
    exact ⟨_, rfl⟩

theorem copy_chunk_trace (v : Vars) (c : List Byte) (tr : List Event) :
    (∀ v1, copy_chunk v c tr = Iter.next v1 → v1.trace = tr) ∧
      (∀ v1, copy_chunk v c tr ≠ Iter.out v1) := by
  unfold copy_chunk
  split_ifs with hb
  · constructor
    · intro v1 h
      simp only [Iter.next.injEq] at h
      subst h
      rfl
    · intro v1 h
      cases h
  · constructor <;> intro v1 h <;> cases h

/-- A completed pass through the loop body appends no call into the real library and no
failed libc call. -/
theorem loop_body_trace_next (env : Env) (fn : String) (v v1 : Vars) (r : Fread)
    (h : loop_body env fn v r = Iter.next v1) :
    ∃ evs, v1.trace = v.trace ++ evs ∧
      ∀ e ∈ evs, is_delegate e = false ∧ failed_call e = false := by
  unfold loop_body at h
  simp only [] at h
  split_ifs at h with he hg hn
  · rw [(copy_chunk_trace _ _ _).1 v1 h]
    refine ⟨_, by simp only [List.append_assoc]; rfl, ?_⟩
    intro e hmem
    simp only [List.singleton_append, List.mem_cons, List.mem_singleton, List.mem_nil_iff,
      or_false] at hmem
    rcases hmem with rfl | rfl
    · exact ⟨rfl, by simpa [failed_call] using he⟩
    · exact ⟨rfl, by simpa [failed_call] using hn⟩
  · rw [(copy_chunk_trace _ _ _).1 v1 h]
    refine ⟨_, rfl, ?_⟩
    intro e hmem
    simp only [List.mem_singleton] at hmem
    subst hmem
    exact ⟨rfl, by simpa [failed_call] using he⟩

/-- A pass through the loop body that ends in `goto out` appends no call into the real
library. -/
theorem loop_body_trace_out (env : Env) (fn : String) (v v1 : Vars) (r : Fread)
    (h : loop_body env fn v r = Iter.out v1) :
    ∃ evs, v1.trace = v.trace ++ evs ∧ ∀ e ∈ evs, is_delegate e = false := by
  unfold loop_body at h
  simp only [] at h
  split_ifs at h with he hg hn
  · simp only [Iter.out.injEq] at h
    subst h
    exact ⟨_, by simp only [List.append_assoc]; rfl, by simp [is_delegate]⟩
  · simp only [Iter.out.injEq] at h
    subst h
    exact ⟨_, by simp only [List.append_assoc]; rfl, by simp [is_delegate]⟩
  · exact absurd h ((copy_chunk_trace _ _ _).2 v1)
  · exact absurd h ((copy_chunk_trace _ _ _).2 v1)

theorem at_eof_chunk : (at_eof.data.take RDBUF_SIZE).length = 0 := rfl

theorem delivered_cons_length (r : Fread) (rest : FILE) :
    (r.data.take RDBUF_SIZE).length ≤ (delivered (r :: rest)).length ∧
      (r.eof = false →
        (delivered (r :: rest)).length =
          (r.data.take RDBUF_SIZE).length + (delivered rest).length) := by
  cases hr : r.eof <;> simp [delivered, hr]

/-- The loop appends no call into the real library, and no failed libc call when it is
left through its test. -/
theorem read_loop_trace (env : Env) (fn : String) (file : FILE) :
    ∀ v v1 : Vars,
      (read_loop env fn file v = Iter.next v1 →
        ∃ evs, v1.trace = v.trace ++ evs ∧
          ∀ e ∈ evs, is_delegate e = false ∧ failed_call e = false) ∧
      (read_loop env fn file v = Iter.out v1 →
        ∃ evs, v1.trace = v.trace ++ evs ∧ ∀ e ∈ evs, is_delegate e = false) := by
  induction file with
  | nil =>
    intro v v1
    exact ⟨loop_body_trace_next env fn v v1 at_eof, loop_body_trace_out env fn v v1 at_eof⟩
  | cons r rest ih =>
    intro v v1
    unfold read_loop
    cases hb : loop_body env fn v r with
    | fault => exact ⟨fun h => (by cases h), fun h => (by cases h)⟩
    | out v2 =>
      refine ⟨fun h => (by cases h), fun h => ?_⟩
      simp only [Iter.out.injEq] at h
      subst h
      exact loop_body_trace_out env fn v v2 r hb
    | next v2 =>
      obtain ⟨e1, ht1, hp1⟩ := loop_body_trace_next env fn v v2 r hb
      cases hr : r.eof with
      | true =>
        simp only [if_true]
        refine ⟨fun h => ?_, fun h => (by cases h)⟩
        simp only [Iter.next.injEq] at h
        subst h
        exact ⟨e1, ht1, hp1⟩
      | false =>
        simp only [Bool.false_eq_true, if_false]
        refine ⟨fun h => ?_, fun h => ?_⟩
        · obtain ⟨e2, ht2, hp2⟩ := (ih v2 v1).1 h
          refine ⟨e1 ++ e2, by rw [ht2, ht1, List.append_assoc], ?_⟩
          intro e he
          rcases List.mem_append.1 he with h1 | h2
          · exact hp1 e h1
          · exact hp2 e h2
        · obtain ⟨e2, ht2, hp2⟩ := (ih v2 v1).2 h
          refine ⟨e1 ++ e2, by rw [ht2, ht1, List.append_assoc], ?_⟩
          intro e he
          rcases List.mem_append.1 he with h1 | h2
          · exact (hp1 e h1).1
          · exact hp2 e h2

/-- With no read error and no allocation failure the loop is left through its test with
everything the stream delivered stored at the start of the buffer. -/
theorem read_loop_ok (env : Env) (fn : String) (hre : ∀ h p n, env.realloc h p n ≠ 0)
    (file : FILE) :
    ∀ v : Vars, (∀ r ∈ file, r.err = false) → Inv v → v.buf ≠ 0 →
      v.sz_buf + (delivered file).length + 4097 < SIZE_MOD →
      ∃ v1, read_loop env fn file v = Iter.next v1 ∧ Inv v1 ∧ v1.buf ≠ 0 ∧
        v1.sz_buf = v.sz_buf + (delivered file).length ∧
        v1.cells.take v1.sz_buf = v.cells.take v.sz_buf ++ delivered file := by
  induction file with
  | nil =>
    intro v _ hinv hbuf hsz
    have hsz1 : v.sz_buf + (at_eof.data.take RDBUF_SIZE).length + 4097 < SIZE_MOD := by
      rw [at_eof_chunk]; simpa [delivered] using hsz
    obtain ⟨v1, h1⟩ := loop_body_progress env fn v at_eof hinv hsz1 rfl hre
    obtain ⟨_, hi, hs, hc, _, hb⟩ := loop_body_next env fn v v1 at_eof hinv hsz1 h1
    refine ⟨v1, h1, hi, ?_, ?_, ?_⟩
    · rcases hb with hb | hb
      · rw [hb]; exact hbuf
      · exact hb
    · rw [hs]; rfl
    · rw [hc]; rfl
  | cons r rest ih =>
    intro v herr hinv hbuf hsz
    have hlen := delivered_cons_length r rest
    have hsz1 : v.sz_buf + (r.data.take RDBUF_SIZE).length + 4097 < SIZE_MOD := by
      have := hlen.1; omega
    have hre0 : r.err = false := herr r (List.mem_cons_self _ _)
    obtain ⟨v1, h1⟩ := loop_body_progress env fn v r hinv hsz1 hre0 hre
    obtain ⟨_, hi, hs, hc, _, hb⟩ := loop_body_next env fn v v1 r hinv hsz1 h1
    have hbuf1 : v1.buf ≠ 0 := by
      rcases hb with hb | hb
      · rw [hb]; exact hbuf
      · exact hb
    unfold read_loop
    rw [h1]
    cases hr : r.eof with
    | true =>
      simp only [if_true]
      refine ⟨v1, rfl, hi, hbuf1, ?_, ?_⟩
      · rw [hs]; simp [delivered, hr]
      · rw [hc]; simp [delivered, hr]
    | false =>
      simp only [Bool.false_eq_true, if_false]
      have hl2 := hlen.2 hr
      obtain ⟨v2, h2, hi2, hb2, hs2, hc2⟩ :=
        ih v1 (fun x hx => herr x (List.mem_cons_of_mem _ hx)) hi hbuf1 (by omega)
      refine ⟨v2, h2, hi2, hb2, by omega, ?_⟩
      rw [hc2, hc]
      simp [delivered, hr]

theorem delegate_calls_append (a b : List Event) :
    delegate_calls (a ++ b) = delegate_calls a ++ delegate_calls b := by
  simp [delegate_calls]

theorem delegate_calls_none (evs : List Event) (h : ∀ e ∈ evs, is_delegate e = false) :
    delegate_calls evs = [] := by
  simp only [delegate_calls, List.filter_eq_nil_iff]
  intro e he
  simp [h e he]

/-- The events of `read_file`: never a call into the real library; the return value is
`-1` with `*obuf` untouched, or `0` with `*obuf` written and no failed libc call. -/
theorem read_file_events (env : Env) (t : List Event) (rf : ReadFile)
    (h : read_file env t = some rf) :
    ∃ evs, rf.trace = t ++ evs ∧ (∀ e ∈ evs, is_delegate e = false) ∧
      ((rf.ret = -1 ∧ rf.obuf = none) ∨
       (rf.ret = 0 ∧ (∃ b, rf.obuf = some b) ∧ ∀ e ∈ evs, failed_call e = false)) := by
  unfold read_file at h
  cases hg : env.getenv "SQLITE3_INIT_SQL" with
  | none =>
    simp only [hg, Option.some.injEq] at h
    subst h
    exact ⟨[], by simp, by simp, Or.inr ⟨rfl, ⟨_, rfl⟩, by simp⟩⟩
  | some fn =>
    simp only [hg] at h
    cases hf : env.fopen t fn with
    | none =>
      simp only [hf, Option.some.injEq] at h
      subst h
      exact ⟨_, rfl, by simp [is_delegate],
        Or.inl ⟨rfl, rfl⟩⟩
    | some file =>
      simp only [hf] at h
      have hv0 : (initial_vars env t fn).trace =
          t ++ [Event.fopen fn true, Event.malloc 1024 (initial_vars env t fn).buf] := by
        simp [initial_vars]
      split_ifs at h with hm
      · simp only [Option.some.injEq] at h
        subst h
        exact ⟨_, by simp only [hv0, List.append_assoc]; rfl, by simp [is_delegate],
          Or.inl ⟨rfl, rfl⟩⟩
      · cases hl : read_loop env fn file (initial_vars env t fn) with
        | fault => simp [hl] at h
        | out v =>
          simp only [hl, Option.some.injEq] at h
          subst h
          obtain ⟨evs, ht, hp⟩ :=
            (read_loop_trace env fn file (initial_vars env t fn) v).2 hl
          refine ⟨_, by simp only [ht, hv0, List.append_assoc]; rfl, ?_,
            Or.inl ⟨rfl, rfl⟩⟩
          intro e he
          simp only [List.mem_append, List.mem_cons, List.mem_singleton, List.mem_nil_iff,
            or_false] at he
          rcases he with (rfl | rfl) | h1 | rfl | rfl
          · rfl
          · rfl
          · exact hp e h1
          · rfl
          · rfl
        | next v =>
          simp only [hl] at h
          split_ifs at h with hlt
          simp only [Option.some.injEq] at h
          subst h
          obtain ⟨evs, ht, hp⟩ :=
            (read_loop_trace env fn file (initial_vars env t fn) v).1 hl
          refine ⟨_, by simp only [ht, hv0, List.append_assoc]; rfl, ?_,
            Or.inr ⟨rfl, ⟨_, rfl⟩, ?_⟩⟩
          · intro e he
            simp only [List.mem_append, List.mem_cons, List.mem_singleton, List.mem_nil_iff,
              or_false] at he
            rcases he with (rfl | rfl) | h1 | rfl | rfl
            · rfl
            · rfl
            · exact (hp e h1).1
            · rfl
            · rfl
          · intro e he
            simp only [List.mem_append, List.mem_cons, List.mem_singleton, List.mem_nil_iff,
              or_false] at he
            rcases he with (rfl | rfl) | h1 | rfl | rfl
            · rfl
            · simpa [failed_call] using hm
            · exact (hp e h1).2
            · rfl
            · rfl

/-- The three hooks are one protocol around their own delegate. -/
theorem hook_run_eq (k : Hook) (env : Env) (t : List Event) (filename ppDb db0 : Ptr) :
    k.run env t filename ppDb db0 =
      match read_file env t with
      | none => none
      | some rf =>
        if rf.ret = -1 then some ⟨SQLITE_CANTOPEN, db0, rf.trace⟩
        else
          let cmdbuf := rf.obuf.getD (env.indeterminate, [])
          let r := k.delegate env rf.trace filename ppDb db0
          let tr := rf.trace ++ [k.call filename ppDb]
          if r.1 ≠ 0 then some ⟨r.1, r.2, tr ++ [Event.free cmdbuf.1]⟩
          else if cmdbuf.1 ≠ 0 then
            let x := env.orig_sqlite3_exec tr r.2 cmdbuf.1 cmdbuf.2 0 0
            let tr := tr ++ [Event.orig_sqlite3_exec r.2 cmdbuf.1 cmdbuf.2 0 0]
            if x.1 ≠ 0 then
              some ⟨SQLITE_CANTOPEN, r.2,
                tr ++ [Event.fprintf_stderr x.2, Event.orig_sqlite3_free x.2,
                       Event.orig_sqlite3_close r.2]⟩
            else some ⟨x.1, r.2, tr⟩
          else some ⟨r.1, r.2, tr⟩ := by
  cases k <;> rfl

theorem is_delegate_call (k : Hook) (filename ppDb : Ptr) :
    is_delegate (k.call filename ppDb) = true := by
  cases k <;> rfl

theorem read_file_delegate_calls (env : Env) (t : List Event) (rf : ReadFile)
    (h : read_file env t = some rf) : delegate_calls rf.trace = delegate_calls t := by
  obtain ⟨evs, ht, hd, _⟩ := read_file_events env t rf h
  rw [ht, delegate_calls_append, delegate_calls_none evs hd, List.append_nil]

theorem delegate_calls_cons (e : Event) (rest : List Event) :
    delegate_calls (e :: rest) =
      if is_delegate e = true then e :: delegate_calls rest else delegate_calls rest := by
  simp only [delegate_calls, List.filter_cons]

theorem delegate_calls_nil : delegate_calls [] = [] := rfl

theorem is_delegate_free (p : Ptr) : is_delegate (Event.free p) = false := rfl

theorem is_delegate_fprintf (p : Ptr) : is_delegate (Event.fprintf_stderr p) = false := rfl

theorem is_delegate_exec (a b : Ptr) (c : List Byte) (d e : Ptr) :
    is_delegate (Event.orig_sqlite3_exec a b c d e) = true := rfl

theorem is_delegate_sqlite3_free (p : Ptr) :
    is_delegate (Event.orig_sqlite3_free p) = true := rfl

theorem is_delegate_close (p : Ptr) : is_delegate (Event.orig_sqlite3_close p) = true := rfl

/-- Claim C1: for each of the three hooks, when `read_file` handed back a non-null script
buffer `p` with cells `cells`, the real open returned `0` and the real exec returns `0`,
the hook returns `0`, `*ppDb` holds the handle the real open stored, and the calls into
the real library are exactly the real open followed by one exec with arguments (that
handle, the script buffer, null callback, null context); in particular no close. -/
theorem hook_runs_script_once_on_success (k : Hook) (env : Env) (t : List Event)
    (filename ppDb db0 : Ptr)
    (rf : ReadFile) (p : Ptr) (cells : List Byte)
    (hrf : read_file env t = some rf) (hbuf : rf.obuf = some (p, cells)) (hp : p ≠ 0)
    (hopen : (k.delegate env rf.trace filename ppDb db0).1 = 0)
    (hexec : (env.orig_sqlite3_exec (rf.trace ++ [k.call filename ppDb])
      (k.delegate env rf.trace filename ppDb db0).2 p cells 0 0).1 = 0) :
    observe (k.run env t filename ppDb db0) =
      some (0, (k.delegate env rf.trace filename ppDb db0).2,
        delegate_calls t ++ [k.call filename ppDb,
          Event.orig_sqlite3_exec (k.delegate env rf.trace filename ppDb db0).2 p cells 0 0]) := by
  have hret : rf.ret ≠ -1 := by
    obtain ⟨_, _, _, h | h⟩ := read_file_events env t rf hrf
    · rw [h.2] at hbuf; cases hbuf
    · rw [h.1]; decide
  rw [hook_run_eq, hrf]
  simp only [hret, hbuf, hp, hopen, hexec, observe, Option.getD_some, if_false, if_true,
    ne_eq, not_true_eq_false, not_false_eq_true, Option.map_some', delegate_calls_append,
    read_file_delegate_calls env t rf hrf, delegate_calls_cons, delegate_calls_nil,
    is_delegate_call, is_delegate_exec, List.append_assoc, List.singleton_append]

/-- Claim C2: for each of the three hooks, when a script buffer was loaded, the real open
returned `0` and exec returns a non-zero code, the hook returns `SQLITE_CANTOPEN` (14)
whatever that code was, `*ppDb` is as the real open set it, and the calls into the real
library are exactly: the real open, the exec, one `sqlite3_free` of the error text exec
stored, then one `sqlite3_close` of the handle the real open stored. -/
theorem hook_closes_connection_when_script_fails (k : Hook) (env : Env) (t : List Event)
    (filename ppDb db0 : Ptr)
    (rf : ReadFile) (p : Ptr) (cells : List Byte)
    (hrf : read_file env t = some rf) (hbuf : rf.obuf = some (p, cells)) (hp : p ≠ 0)
    (hopen : (k.delegate env rf.trace filename ppDb db0).1 = 0)
    (hexec : (env.orig_sqlite3_exec (rf.trace ++ [k.call filename ppDb])
      (k.delegate env rf.trace filename ppDb db0).2 p cells 0 0).1 ≠ 0) :
    observe (k.run env t filename ppDb db0) =
      some (14, (k.delegate env rf.trace filename ppDb db0).2,
        delegate_calls t ++ [k.call filename ppDb,
          Event.orig_sqlite3_exec (k.delegate env rf.trace filename ppDb db0).2 p cells 0 0,
          Event.orig_sqlite3_free (env.orig_sqlite3_exec (rf.trace ++ [k.call filename ppDb])
            (k.delegate env rf.trace filename ppDb db0).2 p cells 0 0).2,
          Event.orig_sqlite3_close (k.delegate env rf.trace filename ppDb db0).2]) := by
  have hret : rf.ret ≠ -1 := by
    obtain ⟨_, _, _, h | h⟩ := read_file_events env t rf hrf
    · rw [h.2] at hbuf; cases hbuf
    · rw [h.1]; decide
  rw [hook_run_eq, hrf]
  simp only [hret, hbuf, hp, hopen, hexec, observe, Option.getD_some, if_false, if_true,
    ne_eq, not_true_eq_false, not_false_eq_true, Option.map_some', delegate_calls_append,
    read_file_delegate_calls env t rf hrf, delegate_calls_cons, delegate_calls_nil,
    is_delegate_call, is_delegate_exec, is_delegate_fprintf, is_delegate_sqlite3_free,
    is_delegate_close, List.append_assoc, List.singleton_append, SQLITE_CANTOPEN,
    Bool.false_eq_true, List.cons_append, List.nil_append]

/-- Claim C3: for each of the three hooks and every behaviour of the real library, when
`SQLITE3_INIT_SQL` is unset the hook is observationally equal to the unwrapped real open:
the delegate is called once, after the same history and with the caller's arguments, the
hook returns the delegate's return code and leaves `*ppDb` as the delegate set it, and no
exec, free or close delegate is called. -/
theorem hook_is_transparent_without_script (k : Hook) (env : Env) (t : List Event)
    (filename ppDb db0 : Ptr)
    (h : env.getenv "SQLITE3_INIT_SQL" = none) :
    observe (k.run env t filename ppDb db0) = observe (k.unwrapped env t filename ppDb db0) ∧
    observe (k.run env t filename ppDb db0) =
      some ((k.delegate env t filename ppDb db0).1, (k.delegate env t filename ppDb db0).2,
        delegate_calls t ++ [k.call filename ppDb]) := by
  have hrf : read_file env t = some ⟨0, some (0, []), t⟩ := by
    simp only [read_file, h]
  have key : observe (k.run env t filename ppDb db0) =
      some ((k.delegate env t filename ppDb db0).1, (k.delegate env t filename ppDb db0).2,
        delegate_calls t ++ [k.call filename ppDb]) := by
    rw [hook_run_eq, hrf]
    by_cases hrc : (k.delegate env t filename ppDb db0).1 = 0 <;>
      simp [hrc, observe, delegate_calls_append, delegate_calls_cons, delegate_calls_nil,
        is_delegate_call, is_delegate_free]
  refine ⟨?_, key⟩
  rw [key]
  simp only [Hook.unwrapped, observe, Option.map_some', delegate_calls_append,
    delegate_calls_cons, delegate_calls_nil, is_delegate_call, if_true]

/-- Claim C5: for each of the three hooks, whenever `read_file` returned `0` (script absent
or loaded) and the real open returns a non-zero code, the hook returns exactly that code,
leaves `*ppDb` as the delegate left it, and calls into the real library only for that
open: neither exec nor close. -/
theorem hook_passes_real_open_failure_through (k : Hook) (env : Env) (t : List Event)
    (filename ppDb db0 : Ptr)
    (rf : ReadFile) (hrf : read_file env t = some rf) (hret : rf.ret = 0)
    (hrc : (k.delegate env rf.trace filename ppDb db0).1 ≠ 0) :
    observe (k.run env t filename ppDb db0) =
      some ((k.delegate env rf.trace filename ppDb db0).1,
        (k.delegate env rf.trace filename ppDb db0).2,
        delegate_calls t ++ [k.call filename ppDb]) := by
  rw [hook_run_eq, hrf]
  simp [hret, hrc, observe, delegate_calls_append,
    read_file_delegate_calls env t rf hrf, delegate_calls_cons, delegate_calls_nil,
    is_delegate_call, is_delegate_free]

/-- Claim C4: for each of the three hooks, if any libc call of `read_file` fails (`fopen`,
`malloc` or `realloc` returns `NULL`, or `ferror` is set after an `fread`, after any
number of good chunks), then `read_file` returns `-1` without writing `*obuf`, and the hook
returns `SQLITE_CANTOPEN` (14) with `*ppDb` untouched and without any call into the real
library; so no truncated script reaches exec. -/
theorem hook_refuses_open_when_loader_fails (k : Hook) (env : Env) (t : List Event)
    (filename ppDb db0 : Ptr)
    (rf : ReadFile) (hrf : read_file env t = some rf)
    (hfail : ∃ e ∈ rf.trace.drop t.length, failed_call e = true) :
    rf.ret = -1 ∧ rf.obuf = none ∧
      observe (k.run env t filename ppDb db0) = some (14, db0, delegate_calls t) := by
  obtain ⟨evs, ht, _, h | h⟩ := read_file_events env t rf hrf
  · refine ⟨h.1, h.2, ?_⟩
    rw [hook_run_eq, hrf]
    simp [h.1, observe, read_file_delegate_calls env t rf hrf, SQLITE_CANTOPEN]
  · exfalso
    obtain ⟨e, he, hf⟩ := hfail
    rw [ht, List.drop_left] at he
    rw [h.2.2 e he] at hf
    cases hf

theorem take_set_self {α : Type} (l : List α) (n : Nat) (a : α) :
    (l.set n a).take n = l.take n := by
  apply List.ext_getElem?
  intro i
  rw [List.getElem?_take, List.getElem?_take]
  split
  · rw [List.getElem?_set_ne (by omega)]
  · rfl

theorem initial_vars_inv (env : Env) (t : List Event) (fn : String) :
    Inv (initial_vars env t fn) ∧ (initial_vars env t fn).sz_buf = 0 := by
  simp [Inv, initial_vars, malloc_cells_length]

/-- Every byte sequence is the content of some error-free stream: `fread` can hand it
over in chunks of `sizeof(rdbuf)` bytes. -/
theorem every_content_deliverable :
    ∀ (n : Nat) (c : List Byte), c.length = n →
      ∃ file : FILE, delivered file = c ∧ ∀ r ∈ file, r.err = false := by
  intro n
  induction n using Nat.strong_induction_on with
  | _ n ih =>
    intro c hn
    by_cases hle : c.length ≤ RDBUF_SIZE
    · refine ⟨[⟨c, true, false⟩], ?_, ?_⟩
      · simp [delivered, List.take_of_length_le hle]
      · intro r hr
        simp only [List.mem_singleton] at hr
        rw [hr]
    · have hlt : (c.drop RDBUF_SIZE).length < n := by
        rw [List.length_drop, ← hn]
        have : 0 < RDBUF_SIZE := by decide
        omega
      obtain ⟨file, hd, he⟩ := ih _ hlt (c.drop RDBUF_SIZE) rfl
      refine ⟨⟨c.take RDBUF_SIZE, false, false⟩ :: file, ?_, ?_⟩
      · simp only [delivered, List.take_take, Nat.min_self, Bool.false_eq_true, if_false, hd,
          List.take_append_drop]
      · intro r hr
        rcases List.mem_cons.1 hr with h | h
        · rw [h]
        · exact he r h

/-- Claim C7: for every byte sequence `c` that the configured file delivers through
`fread` (any chunking, each chunk at most `sizeof(rdbuf)` bytes, empty and multi-chunk
files included), with no read or allocation error and `c` addressable by `size_t`,
`read_file` returns `0` and stores in `*obuf` a non-null buffer whose first `c.length`
bytes are `c` and whose next byte is `0`. -/
theorem read_file_returns_whole_file (env : Env) (t : List Event) (path : String)
    (file : FILE) (c : List Byte)
    (hpath : env.getenv "SQLITE3_INIT_SQL" = some path)
    (hopen : env.fopen t path = some file)
    (hc : delivered file = c)
    (hread : ∀ r ∈ file, r.err = false)
    (hmalloc : ∀ h n, env.malloc h n ≠ 0)
    (hrealloc : ∀ h p n, env.realloc h p n ≠ 0)
    (hsize : c.length + 4097 < SIZE_MOD) :
    ∃ p cells tr, read_file env t = some ⟨0, some (p, cells), tr⟩ ∧ p ≠ 0 ∧
      cells.take c.length = c ∧ cells[c.length]? = some 0 := by
  obtain ⟨hinv, hz⟩ := initial_vars_inv env t path
  have hb0 : (initial_vars env t path).buf ≠ 0 := hmalloc _ _
  obtain ⟨v1, hl, hi1, hb1, hs1, hc1⟩ :=
    read_loop_ok env path hrealloc file (initial_vars env t path) hread hinv hb0
      (by rw [hz, hc]; omega)
  rw [hz, Nat.zero_add, hc] at hs1
  rw [hz, List.take_zero, List.nil_append, hc, hs1] at hc1
  have hlt : v1.sz_buf < v1.cells.length := by
    have := hi1.1; have := hi1.2; omega
  refine ⟨v1.buf, v1.cells.set v1.sz_buf 0, v1.trace ++ [Event.free 0, Event.fclose], ?_,
    hb1, ?_, ?_⟩
  · simp only [read_file, hpath, hopen, hb0, if_false, hl, hlt, if_true]
  · rw [← hs1, take_set_self, hs1, hc1]
  · rw [← hs1, List.getElem?_set_self hlt]

/-- The invariant holds at every loop test, and the loop never stores outside the
block. -/
theorem read_loop_inv (env : Env) (fn : String) (file : FILE) :
    ∀ v : Vars, Inv v → v.sz_buf + (delivered file).length + 4097 < SIZE_MOD →
      (∀ h ∈ loop_heads env fn file v, Inv h) ∧
      read_loop env fn file v ≠ Iter.fault ∧
      (∀ v1, read_loop env fn file v = Iter.next v1 → Inv v1) := by
  induction file with
  | nil =>
    intro v hinv hsz
    have hsz1 : v.sz_buf + (at_eof.data.take RDBUF_SIZE).length + 4097 < SIZE_MOD := by
      rw [at_eof_chunk]; simpa [delivered] using hsz
    refine ⟨?_, loop_body_no_fault env fn v at_eof hinv hsz1,
      fun v1 h => (loop_body_next env fn v v1 at_eof hinv hsz1 h).2.1⟩
    intro h hmem
    unfold loop_heads at hmem
    cases hb : loop_body env fn v at_eof with
    | next v1 =>
      simp only [hb, List.mem_cons, List.mem_singleton, List.mem_nil_iff, or_false] at hmem
      rcases hmem with rfl | rfl
      · exact hinv
      · exact (loop_body_next env fn v _ at_eof hinv hsz1 hb).2.1
    | out v1 =>
      simp only [hb, List.mem_singleton] at hmem
      rw [hmem]; exact hinv
    | fault =>
      simp only [hb, List.mem_singleton] at hmem
      rw [hmem]; exact hinv
  | cons r rest ih =>
    intro v hinv hsz
    have hlen := delivered_cons_length r rest
    have hsz1 : v.sz_buf + (r.data.take RDBUF_SIZE).length + 4097 < SIZE_MOD := by
      have := hlen.1; omega
    unfold loop_heads read_loop
    cases hb : loop_body env fn v r with
    | fault => exact absurd hb (loop_body_no_fault env fn v r hinv hsz1)
    | out v1 =>
      refine ⟨?_, fun h => (by cases h), fun v2 h => (by cases h)⟩
      intro h hmem
      simp only [List.mem_singleton] at hmem
      rw [hmem]; exact hinv
    | next v1 =>
      obtain ⟨_, hi1, hs1, _⟩ := loop_body_next env fn v v1 r hinv hsz1 hb
      cases hr : r.eof with
      | true =>
        simp only [if_true]
        refine ⟨?_, fun h => (by cases h), fun v2 h => ?_⟩
        · intro h hmem
          simp only [List.mem_cons, List.mem_singleton, List.mem_nil_iff, or_false] at hmem
          rcases hmem with rfl | rfl
          · exact hinv
          · exact hi1
        · simp only [Iter.next.injEq] at h
          subst h
          exact hi1
      | false =>
        simp only [Bool.false_eq_true, if_false]
        have hl2 := hlen.2 hr
        obtain ⟨ih1, ih2, ih3⟩ := ih v1 hi1 (by omega)
        refine ⟨?_, ih2, ih3⟩
        intro h hmem
        simp only [List.mem_cons] at hmem
        rcases hmem with rfl | hmem
        · exact hinv
        · exact ih1 h hmem

theorem get_sym_some (ld : Loader) (lib : Ptr) (calls : List DlEvent) (name : String)
    (sym : Ptr) (c : List DlEvent) (h : get_sym ld lib calls name = some (sym, c)) :
    sym ≠ 0 ∧ c = calls ++ [DlEvent.dlsym lib name] := by
  unfold get_sym at h
  simp only [] at h
  by_cases h1 : (ld.dlsym calls lib name).2 = none ∧ (ld.dlsym calls lib name).1 = 0
  · simp [h1] at h
  · rw [if_neg h1] at h
    by_cases h2 : (ld.dlsym calls lib name).2 = none
    · simp only [h2, ne_eq, not_true_eq_false, if_false, Option.some.injEq,
        Prod.mk.injEq] at h
      refine ⟨?_, h.2.symm⟩
      rw [← h.1]
      exact fun h0 => h1 ⟨h2, h0⟩
    · simp [h2] at h

/-- Claim C9: if a first call of `load_syms` from the start state completes without
aborting, then the library handle and the six bindings are all non-null, exactly one
`dlopen` and six `dlsym` calls were made, and a later call (in any environment) returns
the state unchanged: no further loader call, every binding as the first call set it. -/
theorem load_syms_idempotent (ld ld2 : Loader) (getenv getenv2 : String → Option String)
    (s1 : Syms)
    (h : load_syms ld getenv Syms.start = some s1) :
    load_syms ld2 getenv2 s1 = some s1 ∧
      s1.lib ≠ 0 ∧ s1.orig_sqlite3_open ≠ 0 ∧ s1.orig_sqlite3_open16 ≠ 0 ∧
      s1.orig_sqlite3_open_v2 ≠ 0 ∧ s1.orig_sqlite3_exec ≠ 0 ∧ s1.orig_sqlite3_free ≠ 0 ∧
      s1.orig_sqlite3_close ≠ 0 ∧
      s1.calls =
        [DlEvent.dlopen ((getenv "SQLITE3_LIBRARY").getD "libsqlite3.so.0")
           (RTLD_NOW ||| RTLD_GLOBAL),
         DlEvent.dlsym s1.lib "sqlite3_open", DlEvent.dlsym s1.lib "sqlite3_open16",
         DlEvent.dlsym s1.lib "sqlite3_open_v2", DlEvent.dlsym s1.lib "sqlite3_exec",
         DlEvent.dlsym s1.lib "sqlite3_free", DlEvent.dlsym s1.lib "sqlite3_close"] := by
  have hlib : s1.lib ≠ 0 ∧ s1.orig_sqlite3_open ≠ 0 ∧ s1.orig_sqlite3_open16 ≠ 0 ∧
      s1.orig_sqlite3_open_v2 ≠ 0 ∧ s1.orig_sqlite3_exec ≠ 0 ∧ s1.orig_sqlite3_free ≠ 0 ∧
      s1.orig_sqlite3_close ≠ 0 ∧
      s1.calls =
        [DlEvent.dlopen ((getenv "SQLITE3_LIBRARY").getD "libsqlite3.so.0")
           (RTLD_NOW ||| RTLD_GLOBAL),
         DlEvent.dlsym s1.lib "sqlite3_open", DlEvent.dlsym s1.lib "sqlite3_open16",
         DlEvent.dlsym s1.lib "sqlite3_open_v2", DlEvent.dlsym s1.lib "sqlite3_exec",
         DlEvent.dlsym s1.lib "sqlite3_free", DlEvent.dlsym s1.lib "sqlite3_close"] := by
    unfold load_syms at h
    simp only [Syms.start, ne_eq, not_true_eq_false, if_false] at h
    by_cases h1 : (ld.dlopen [] ((getenv "SQLITE3_LIBRARY").getD "libsqlite3.so.0")
        (RTLD_NOW ||| RTLD_GLOBAL)).2 = none ∧
      (ld.dlopen [] ((getenv "SQLITE3_LIBRARY").getD "libsqlite3.so.0")
        (RTLD_NOW ||| RTLD_GLOBAL)).1 = 0
    · simp [h1] at h
    rw [if_neg h1] at h
    by_cases h2 : (ld.dlopen [] ((getenv "SQLITE3_LIBRARY").getD "libsqlite3.so.0")
        (RTLD_NOW ||| RTLD_GLOBAL)).2 = none
    swap
    · simp [h2] at h
    simp only [h2, ne_eq, not_true_eq_false, if_false] at h
    have hl : (ld.dlopen [] ((getenv "SQLITE3_LIBRARY").getD "libsqlite3.so.0")
        (RTLD_NOW ||| RTLD_GLOBAL)).1 ≠ 0 := fun h0 => h1 ⟨h2, h0⟩
    split at h
    · cases h
    · rename_i o c1 e1
      split at h
      · cases h
      · rename_i o16 c2 e2
        split at h
        · cases h
        · rename_i ov2 c3 e3
          split at h
          · cases h
          · rename_i ex c4 e4
            split at h
            · cases h
            · rename_i fr c5 e5
              split at h
              · cases h
              · rename_i cl c6 e6
                simp only [Option.some.injEq] at h
                subst h
                obtain ⟨n1, q1⟩ := get_sym_some _ _ _ _ _ _ e1
                obtain ⟨n2, q2⟩ := get_sym_some _ _ _ _ _ _ e2
                obtain ⟨n3, q3⟩ := get_sym_some _ _ _ _ _ _ e3
                obtain ⟨n4, q4⟩ := get_sym_some _ _ _ _ _ _ e4
                obtain ⟨n5, q5⟩ := get_sym_some _ _ _ _ _ _ e5
                obtain ⟨n6, q6⟩ := get_sym_some _ _ _ _ _ _ e6
                refine ⟨hl, n1, n2, n3, n4, n5, n6, ?_⟩
                simp only [q6, q5, q4, q3, q2, q1, List.nil_append, List.cons_append]
  refine ⟨?_, hlib⟩
  unfold load_syms
  rw [if_pos hlib.1]

/-- Claim C10: in the read loop of `read_file`, for every stream (each chunk at most
`sizeof(rdbuf)` bytes) whose content is addressable by `size_t`, at every loop test and
after the loop `sz_buf + 1 <= sz_buf_total` and `sz_buf_total` is the true size of the
block; from every such state a pass through the body never stores outside the block and
ends with `sz_buf + sz_read + 1 <= sz_buf_total`; so the loop never faults, the terminator
index `sz_buf` is inside the block, and `read_file` has defined behaviour. -/
theorem read_file_stays_in_bounds (env : Env) (t : List Event) (path : String) (file : FILE)
    (hpath : env.getenv "SQLITE3_INIT_SQL" = some path)
    (hopen : env.fopen t path = some file)
    (hsize : (delivered file).length + 4097 < SIZE_MOD) :
    (∀ v ∈ loop_heads env path file (initial_vars env t path),
      v.sz_buf + 1 ≤ v.sz_buf_total ∧ v.sz_buf_total = v.cells.length) ∧
    (∀ v ∈ loop_heads env path file (initial_vars env t path), ∀ r : Fread,
      v.sz_buf + (r.data.take RDBUF_SIZE).length + 4097 < SIZE_MOD →
        loop_body env path v r ≠ Iter.fault ∧
        ∀ v1, loop_body env path v r = Iter.next v1 →
          v.sz_buf + (r.data.take RDBUF_SIZE).length + 1 ≤ v1.sz_buf_total ∧
          v1.sz_buf_total = v1.cells.length) ∧
    read_loop env path file (initial_vars env t path) ≠ Iter.fault ∧
    (∀ v1, read_loop env path file (initial_vars env t path) = Iter.next v1 →
      v1.sz_buf < v1.cells.length) ∧
    read_file env t ≠ none := by
  obtain ⟨hinv, hz⟩ := initial_vars_inv env t path
  obtain ⟨h1, h2, h3⟩ :=
    read_loop_inv env path file (initial_vars env t path) hinv (by rw [hz]; omega)
  have h4 : ∀ v1, read_loop env path file (initial_vars env t path) = Iter.next v1 →
      v1.sz_buf < v1.cells.length := by
    intro v1 hv
    have := (h3 v1 hv).1; have := (h3 v1 hv).2; omega
  refine ⟨h1, ?_, h2, h4, ?_⟩
  · intro v hv r hr
    refine ⟨loop_body_no_fault env path v r (h1 v hv) hr, fun v1 hb => ?_⟩
    obtain ⟨_, hi, hs, _⟩ := loop_body_next env path v v1 r (h1 v hv) hr hb
    exact ⟨by rw [← hs]; exact hi.1, hi.2⟩
  · simp only [read_file, hpath, hopen]
    split_ifs with hm
    · exact fun h => (by cases h)
    · cases hl : read_loop env path file (initial_vars env t path) with
      | fault => exact absurd hl h2
      | out v => exact fun h => (by cases h)
      | next v =>
        simp only [h4 v hl, if_true]
        exact fun h => (by cases h)

/-- The loop invariant of claim C10 on the six-chunk sample file. -/
theorem read_file_stays_in_bounds_witness :
    (∀ v ∈ loop_heads (env_script big_file) "init.sql" big_file
        (initial_vars (env_script big_file) [] "init.sql"),
      v.sz_buf + 1 ≤ v.sz_buf_total ∧ v.sz_buf_total = v.cells.length) ∧
    (∀ v ∈ loop_heads (env_script big_file) "init.sql" big_file
        (initial_vars (env_script big_file) [] "init.sql"), ∀ r : Fread,
      v.sz_buf + (r.data.take RDBUF_SIZE).length + 4097 < SIZE_MOD →
        loop_body (env_script big_file) "init.sql" v r ≠ Iter.fault ∧
        ∀ v1, loop_body (env_script big_file) "init.sql" v r = Iter.next v1 →
          v.sz_buf + (r.data.take RDBUF_SIZE).length + 1 ≤ v1.sz_buf_total ∧
          v1.sz_buf_total = v1.cells.length) ∧
    read_loop (env_script big_file) "init.sql" big_file
      (initial_vars (env_script big_file) [] "init.sql") ≠ Iter.fault ∧
    (∀ v1, read_loop (env_script big_file) "init.sql" big_file
        (initial_vars (env_script big_file) [] "init.sql") = Iter.next v1 →
      v1.sz_buf < v1.cells.length) ∧
    read_file (env_script big_file) [] ≠ none :=
  read_file_stays_in_bounds (env_script big_file) [] "init.sql" big_file rfl rfl
    (by decide!)

/-- Claim C6 fails on the code: with the nine-byte sample script loaded at `4096` and a
real open that succeeds, each hook returns without any `free(4096)`, both when exec
succeeds (return `0`) and when exec fails (return 14); only the path on which the real
open fails (return `7`) frees the buffer, once. -/
theorem hook_leaks_script_buffer :
    read_file (env_script small_file) [] = some small_loaded ∧
    (∀ k ∈ [Hook.plain, Hook.wide, Hook.v2 6 0],
      ((Hook.run k (env_script small_file) [] 100 200 0).map
          fun r => (r.ret, r.trace.count (Event.free 4096))) = some (0, 0) ∧
      ((Hook.run k (env_bad_sql small_file) [] 100 200 0).map
          fun r => (r.ret, r.trace.count (Event.free 4096))) = some (14, 0) ∧
      ((Hook.run k (env_no_db small_file) [] 100 200 0).map
          fun r => (r.ret, r.trace.count (Event.free 4096))) = some (7, 1)) := by
  decide!

/-- Claim C1 on the sample script and `sqlite3_open_v2`. -/
theorem hook_runs_script_once_on_success_witness :
    observe ((Hook.v2 6 0).run (env_script small_file) [] 100 200 0) =
      some (0, 500,
        [Event.orig_sqlite3_open_v2 100 200 6 0,
         Event.orig_sqlite3_exec 500 4096 small_cells 0 0]) :=
  hook_runs_script_once_on_success (Hook.v2 6 0) (env_script small_file) [] 100 200 0
    small_loaded 4096 small_cells (by decide!) rfl (by decide) rfl rfl

/-- Claim C2 on the sample script, a rejecting exec and `sqlite3_open`. -/
theorem hook_closes_connection_when_script_fails_witness :
    observe (Hook.plain.run (env_bad_sql small_file) [] 100 200 0) =
      some (14, 500,
        [Event.orig_sqlite3_open 100 200,
         Event.orig_sqlite3_exec 500 4096 small_cells 0 0,
         Event.orig_sqlite3_free 700, Event.orig_sqlite3_close 500]) :=
  hook_closes_connection_when_script_fails Hook.plain (env_bad_sql small_file) [] 100 200 0
    small_loaded 4096 small_cells (by decide!) rfl (by decide) rfl (by decide)

/-- Claim C3 on the base world and `sqlite3_open16`. -/
theorem hook_is_transparent_without_script_witness :
    observe (Hook.wide.run env_base [] 100 200 0) =
        observe (Hook.wide.unwrapped env_base [] 100 200 0) ∧
    observe (Hook.wide.run env_base [] 100 200 0) =
      some (0, 500, [Event.orig_sqlite3_open16 100 200]) :=
  hook_is_transparent_without_script Hook.wide env_base [] 100 200 0 rfl

/-- Claim C5 on the sample script, a failing real open and `sqlite3_open16`. -/
theorem hook_passes_real_open_failure_through_witness :
    observe (Hook.wide.run (env_no_db small_file) [] 100 200 300) =
      some (7, 0, [Event.orig_sqlite3_open16 100 200]) :=
  hook_passes_real_open_failure_through Hook.wide (env_no_db small_file) [] 100 200 300
    small_loaded (by decide!) rfl (by decide)

/-- Claim C4 on a file whose second `fread` fails, and `sqlite3_open`. -/
theorem hook_refuses_open_when_loader_fails_witness :
    broken_loaded.ret = -1 ∧ broken_loaded.obuf = none ∧
      observe (Hook.plain.run (env_script broken_file) [] 100 200 300) =
        some (14, 300, []) :=
  hook_refuses_open_when_loader_fails Hook.plain (env_script broken_file) [] 100 200 300
    broken_loaded (by decide!) ⟨Event.fread 0 true, by decide, rfl⟩

/-- Claim C7 on a 1033-byte file, longer than one chunk. -/
theorem read_file_returns_whole_file_witness :
    ∃ p cells tr, read_file (env_script two_chunk_file) [] = some ⟨0, some (p, cells), tr⟩ ∧
      p ≠ 0 ∧ cells.take two_chunk_content.length = two_chunk_content ∧
      cells[two_chunk_content.length]? = some 0 :=
  read_file_returns_whole_file (env_script two_chunk_file) [] "init.sql" two_chunk_file
    two_chunk_content rfl rfl (by decide!) (by decide!)
    (fun _ _ => (by decide : (4096 : Nat) ≠ 0))
    (fun _ _ _ => (by decide : (8192 : Nat) ≠ 0)) (by decide!)

/-- Claim C9 on the sample loader. -/
theorem load_syms_idempotent_witness :
    load_syms sample_loader (fun _ => some "elsewhere.so") sample_syms = some sample_syms ∧
      sample_syms.lib ≠ 0 ∧ sample_syms.orig_sqlite3_open ≠ 0 ∧
      sample_syms.orig_sqlite3_open16 ≠ 0 ∧ sample_syms.orig_sqlite3_open_v2 ≠ 0 ∧
      sample_syms.orig_sqlite3_exec ≠ 0 ∧ sample_syms.orig_sqlite3_free ≠ 0 ∧
      sample_syms.orig_sqlite3_close ≠ 0 ∧
      sample_syms.calls =
        [DlEvent.dlopen "libsqlite3.so.0" 258,
         DlEvent.dlsym 1000 "sqlite3_open", DlEvent.dlsym 1000 "sqlite3_open16",
         DlEvent.dlsym 1000 "sqlite3_open_v2", DlEvent.dlsym 1000 "sqlite3_exec",
         DlEvent.dlsym 1000 "sqlite3_free", DlEvent.dlsym 1000 "sqlite3_close"] :=
  load_syms_idempotent sample_loader sample_loader (fun _ => none)
    (fun _ => some "elsewhere.so") sample_syms (by decide)

end Sqlite3Preload
